import Mathlib

/-!
Verification of the playback-orchestration core of `src/music_player.py`
(class `MusicPlayer`).  The Python code is shallowly embedded: the
playback-relevant mutable attributes of the `MusicPlayer` object become a
`PlayerState` record, each method becomes a state-transforming function, and
the external world (file system, VLC / pygame backends, metadata tags) is
passed in explicitly as environment records.  Python `float` arithmetic is
modelled with exact rationals, Python `int` with `Int` (Python `%` on a
positive modulus agrees with `Int.emod`), and Python strings with `String` /
`List Char`.  GUI-only effects (labels, listbox highlighting, message boxes)
are outside the model; a message box reporting an error is modelled as the
operation returning `some err`.
-/

/-! String utilities mirroring the Python primitives used by the code.
Lean's own `String.splitOn`/`String.trim` are not used because their
semantics must match Python's `str.split`/`str.strip`, so the exact
scanning behaviour is spelled out on `List Char`. -/

/-- Python `str.isspace` for the ASCII whitespace the code can meet:
space, tab, CR, LF, vertical tab, form feed. -/
def isPySpace (c : Char) : Bool :=
  c.isWhitespace || c = '\x0b' || c = '\x0c'

/-- Python `str.strip()`: drop leading and trailing whitespace. -/
def pyStrip (l : List Char) : List Char :=
  ((l.dropWhile isPySpace).reverse.dropWhile isPySpace).reverse

/-- Does the needle occur at the head of the haystack (`str.startswith`)? -/
def leadsList : List Char → List Char → Bool
  | [], _ => true
  | _ :: _, [] => false
  | n :: ns, h :: hs => n == h && leadsList ns hs

/-- Python `needle in haystack`: the needle occurs somewhere in the haystack. -/
def occursIn (nee : List Char) : List Char → Bool
  | [] => leadsList nee []
  | c :: rest => leadsList nee (c :: rest) || occursIn nee rest

/-- Fuelled worker for Python `str.split(sep)` with a non-empty separator:
scan left to right, emitting the accumulated segment at each separator
occurrence.  The fuel is structural; callers pass `length + 1`, which is
always enough. -/
def splitFuel (sep : List Char) : Nat → List Char → List Char → List (List Char)
  | _, acc, [] => [acc.reverse]
  | 0, acc, s => [acc.reverse ++ s]
  | fuel + 1, acc, c :: rest =>
    if leadsList sep (c :: rest) then
      acc.reverse :: splitFuel sep fuel [] (rest.drop (sep.length - 1))
    else
      splitFuel sep fuel (c :: acc) rest

/-- Python `s.split(sep)` for a non-empty separator. -/
def pySplit (sep s : List Char) : List (List Char) :=
  splitFuel sep (s.length + 1) [] s

/-- Python `os.path` separator characters (the code targets Windows, where
both slash styles separate path components). -/
def isPathSep (c : Char) : Bool := c = '/' || c = '\\'

/-- Python `os.path.basename`: the suffix after the last path separator. -/
def basenameL (p : List Char) : List Char :=
  p.foldl (fun acc c => if isPathSep c then [] else acc ++ [c]) []

/-- Index of the last `'.'` in the list, if any (Python `str.rfind('.')`). -/
def rfindDot (b : List Char) : Option Nat :=
  ((b.enum.filter (fun q => q.2 = '.')).map (fun q => q.1)).getLast?

/-- Python `os.path.splitext(b)[0]` on a basename: cut at the last dot,
unless every character before that dot is itself a dot (leading dots are
not extension separators). -/
def stripExtL (b : List Char) : List Char :=
  match rfindDot b with
  | none => b
  | some d => if (b.take d).any (fun c => c ≠ '.') then b.take d else b

/-- The separator list of `get_song_info` (source line 779).  The second and
third entries are the literal characters present in the source file, the
mojibake renderings of an en dash and an em dash surrounded by spaces. -/
def sepListL : List (List Char) :=
  [" - ".data, " ‚Äì ".data, " ‚Äî ".data, "-".data, "_".data]

/-- The separator loop of `get_song_info`: for the first separator occurring
in the name whose split yields more than one part, keep the stripped last
part and stop; otherwise try the next separator. -/
def sepLoop : List (List Char) → List Char → List Char
  | [], name => name
  | sep :: rest, name =>
    if occursIn sep name then
      let parts := pySplit sep name
      if parts.length > 1 then pyStrip (parts.getLastD name)
      else sepLoop rest name
    else sepLoop rest name

/-- Character class `[.\s\-_]` of the track-number regex. -/
def isTrackPunct (c : Char) : Bool :=
  c = '.' || isPySpace c || c = '-' || c = '_'

/-- Python `re.sub(r'^\d+[.\s\-_]+', '', name, count=1)`: if the name starts
with one or more digits followed by one or more of `.`, whitespace, `-`, `_`,
remove that prefix, else leave the name unchanged. -/
def stripTrackNum (l : List Char) : List Char :=
  let ds := l.takeWhile Char.isDigit
  let rest := l.dropWhile Char.isDigit
  let ps := rest.takeWhile isTrackPunct
  if ds.isEmpty || ps.isEmpty then l else rest.dropWhile isTrackPunct

/-- The filename-fallback branch of `get_song_info` (source lines 772-794):
basename, drop the extension, separator loop, strip a leading track number,
strip whitespace, and substitute `"Unknown Song"` for an empty result. -/
def get_song_fallback (file_path : String) : String :=
  let base := basenameL file_path.data
  let song0 := stripExtL base
  let song1 := sepLoop sepListL song0
  let song2 := pyStrip (stripTrackNum song1)
  if song2 = [] then "Unknown Song" else ⟨song2⟩

/-- Full `get_song_info` (source lines 747-794).  The metadata probe
(mutagen tags `TIT2`/`TITLE`, with every internal exception swallowed) is
abstracted as `meta : Option String`, the stripped tag value when one was
readable.  A usable non-empty tag different from `"Unknown"` is returned
as-is; otherwise the filename fallback runs. -/
def get_song_info (meta : Option String) (file_path : String) : String :=
  match meta with
  | some t => if t ≠ "" ∧ t ≠ "Unknown" then t else get_song_fallback file_path
  | none => get_song_fallback file_path

/-! Player state and environments. -/

/-- The playback-relevant mutable attributes of the `MusicPlayer` object
(source lines 190-200 and the backend flags of lines 158-170).
`playlists` models the Python dict `{name: [file_paths]}` as an association
list with unique keys; `use_vlc` is true when the VLC backend was
constructed and is active (`self._use_vlc and self._vlc_player`), decided
once at startup; `progress_var` is the value of the progress bar variable
(0..100). -/
structure PlayerState where
  all_songs : List String
  favourites : List String
  playlists : List (String × List String)
  current_playlist_name : String
  current_playlist : List String
  current_index : Int
  is_playing : Bool
  is_paused : Bool
  volume : ℚ
  use_vlc : Bool
  progress_var : ℚ
deriving DecidableEq

/-- Errors surfaced to the user by the playback operations (each one is a
`messagebox` call in the source).  `internalError` stands for the outer
`except` clause of `play_song` (source line 848), reachable only through
an indexing error. -/
inductive PlayError where
  | emptyPlaylist
  | resourceMissing (path : String)
  | backendError (msg : String)
  | internalError
deriving DecidableEq

/-- External world consulted by `play_song`: `os.path.exists`, and the raw
outcome of the active backend's load-and-play call on a path (`none` =
started fine, `some msg` = the backend raised with message `msg`). -/
structure PlayEnv where
  file_exists : String → Bool
  raw_play : String → Option String

/-- Python list indexing `l[i]` with an `Int` index: negative indices count
from the end, and an out-of-range index raises (`none`). -/
def pyListGet (l : List String) (i : Int) : Option String :=
  let j := if i < 0 then i + l.length else i
  if 0 ≤ j then l.get? j.toNat else none

/-- Membership of a key in the association list modelling a Python dict. -/
def lookupPlaylist (s : PlayerState) (name : String) : Option (List String) :=
  s.playlists.lookup name

/-- Python dict assignment `playlists[k] = v` for a key already present. -/
def updatePlaylists (m : List (String × List String)) (k : String)
    (v : List String) : List (String × List String) :=
  m.map (fun p => if p.1 = k then (k, v) else p)

/-! Backend layer (source lines 940-1029). -/

/-- The pygame decode-failure marker special-cased by `_backend_play`. -/
def modplugToken : String := "ModPlug_load failed"

/-- The fixed part of the message `_backend_play` wraps around a pygame
`ModPlug_load failed` error (source lines 957-963). -/
def remediationLead : String :=
  "Pygame couldn\x27t decode this file (ModPlug_load failed).\n\nFix: install VLC backend:\n  pip install python-vlc\nand install VLC player on Windows.\n\nOriginal error: "

/-- The full wrapped message raised for a pygame `ModPlug_load failed`
error: the remediation text followed by the original error message. -/
def remediationText (msg : String) : String :=
  remediationLead ++ msg

/-- Python `needle in haystack` at `String` level. -/
def strContains (hay nee : String) : Bool := occursIn nee.data hay.data

/-- Outcome of `_backend_play` (source lines 940-964) given the active
backend and the raw backend outcome: the VLC branch performs plain VLC
calls, while the pygame branch re-raises a `ModPlug_load failed` error
wrapped in remediation text and propagates any other error unchanged. -/
def backend_play (useVlc : Bool) (raw : Option String) : Option String :=
  if useVlc then raw
  else
    match raw with
    | none => none
    | some msg =>
      if strContains msg modplugToken then some (remediationText msg)
      else some msg

/-- Result of `_backend_is_busy` (source lines 985-995): the VLC branch
compares `is_playing()` with 1 and swallows exceptions to `False`; the
pygame branch returns `get_busy()`, also defaulting to `False` on an
exception.  `none` in a query argument models a raised exception. -/
def backend_is_busy (useVlc : Bool) (vlcPlayingCode : Option Int)
    (pygameBusy : Option Bool) : Bool :=
  if useVlc then
    match vlcPlayingCode with
    | some c => c == 1
    | none => false
  else pygameBusy.getD false

/-- Clamp of `_backend_set_volume` (source line 998):
`max(0.0, min(1.0, v))`. -/
def clamp01 (v : ℚ) : ℚ := max 0 (min 1 v)

/-- The volume value the backend layer applies after the clamp of
`_backend_set_volume` (source lines 997-1006). -/
def backend_set_volume (v : ℚ) : ℚ := clamp01 v

/-! Engine operations. -/

/-- Method `select_playlist` (source lines 394-414), restricted to the
engine state (sidebar highlighting is GUI-only): set the current playlist
name and replace the current playlist view with a copy of the named
collection; `"All"` and `"Favourite"` map to their dedicated lists, any
other name to `playlists.get(name, [])`. -/
def select_playlist (s : PlayerState) (name : String) : PlayerState :=
  { s with
    current_playlist_name := name,
    current_playlist :=
      if name = "All" then s.all_songs
      else if name = "Favourite" then s.favourites
      else (lookupPlaylist s name).getD [] }

/-- The stale-cursor clamp at the top of `play_song` (source lines
802-803): a cursor at or past the end of the view is reset to 0. -/
def clampIndex (s : PlayerState) : PlayerState :=
  if (s.current_playlist.length : Int) ≤ s.current_index then
    { s with current_index := 0 }
  else s

/-- Method `play_song` (source lines 796-853), the spec's `play_current`:
fail on an empty view; clamp a cursor at or past the end to 0; fail if the
file does not exist; delegate to the backend and fail on a backend error;
on success set `is_playing` and clear `is_paused`.  Label and listbox
updates are GUI-only and the 1-second `check_song_end` rescheduling is
modelled as the separate tick below.  The outer `except` clause (reachable
only via an indexing error on a negative out-of-range cursor) sets
`is_playing = False`. -/
def play_song (env : PlayEnv) (s : PlayerState) : PlayerState × Option PlayError :=
  if s.current_playlist = [] then (s, some .emptyPlaylist)
  else
    let s1 := clampIndex s
    match pyListGet s1.current_playlist s1.current_index with
    | none => ({ s1 with is_playing := false }, some .internalError)
    | some path =>
      if env.file_exists path then
        match backend_play s1.use_vlc (env.raw_play path) with
        | some msg => (s1, some (.backendError msg))
        | none => ({ s1 with is_playing := true, is_paused := false }, none)
      else (s1, some (.resourceMissing path))

/-- Method `next_song` (source lines 891-897): no-op on an empty view, else
advance the cursor by +1 modulo the view length and play. -/
def next_song (env : PlayEnv) (s : PlayerState) : PlayerState × Option PlayError :=
  if s.current_playlist = [] then (s, none)
  else
    play_song env
      { s with current_index :=
          (s.current_index + 1) % (s.current_playlist.length : Int) }

/-- Method `previous_song` (source lines 899-905): no-op on an empty view,
else retreat the cursor by 1 modulo the view length and play. -/
def previous_song (env : PlayEnv) (s : PlayerState) : PlayerState × Option PlayError :=
  if s.current_playlist = [] then (s, none)
  else
    play_song env
      { s with current_index :=
          (s.current_index - 1) % (s.current_playlist.length : Int) }

/-- Method `set_volume` (source lines 907-911): store the slider value
divided by 100, and hand that stored value to the backend layer.  The pair
returned is the new state together with the clamped volume the backend
layer applies. -/
def set_volume (s : PlayerState) (value : ℚ) : PlayerState × ℚ :=
  let vol := value / 100
  ({ s with volume := vol }, backend_set_volume vol)

/-- One firing of `check_song_end` (source lines 855-860), the end-of-track
poll: when `is_playing` holds and `pygame.mixer.music.get_busy()` is false
it calls `next_song`, otherwise it merely reschedules itself.  Note the
source consults pygame's busy flag directly, not `_backend_is_busy`. -/
def check_song_end (env : PlayEnv) (pygameBusy : Bool) (s : PlayerState) :
    PlayerState × Option PlayError :=
  if s.is_playing && !pygameBusy then next_song env s else (s, none)

/-- One firing of `update_progress` (source lines 913-929), the 100 ms
progress tick, returning the new progress-bar value: when playing and the
backend is busy it recomputes position and duration (`none` models a query
that raised; the surrounding `try/except` swallows it) and, when the
duration is positive, publishes `min(position/duration*100, 100)`; in every
other case the previous progress value is left in place. -/
def update_progress (busy : Bool) (pos dur : Option ℚ) (s : PlayerState) : ℚ :=
  if s.is_playing && busy then
    match pos, dur with
    | some p, some d => if 0 < d then min (p / d * 100) 100 else s.progress_var
    | _, _ => s.progress_var
  else s.progress_var

/-- Method `remove_song_from_current_playlist` (source lines 1161-1176):
for an in-range listbox index, when the current playlist name is a stored
playlist containing the indexed path, remove the first occurrence of the
path from both the stored playlist and the view, then decrement the cursor
when the removed index is at or before it and the cursor is positive. -/
def remove_song_from_current_playlist (s : PlayerState) (index : Nat) : PlayerState :=
  if hidx : index < s.current_playlist.length then
    let path := s.current_playlist.get ⟨index, hidx⟩
    match lookupPlaylist s s.current_playlist_name with
    | some pl =>
      if path ∈ pl then
        { s with
          playlists := updatePlaylists s.playlists s.current_playlist_name (pl.erase path),
          current_playlist := s.current_playlist.erase path,
          current_index :=
            if (index : Int) ≤ s.current_index ∧ 0 < s.current_index then
              s.current_index - 1
            else s.current_index }
      else s
    | none => s
  else s

/-! Concrete fixtures used by counterexamples and witnesses. -/

/-- Concrete player state: three tracks in the current view, cursor on the
last of them, a song playing, the library holding a single song. -/
def sampleState : PlayerState :=
  { all_songs := ["a.mp3"]
    favourites := []
    playlists := [("All", ["a.mp3"]), ("Favourite", [])]
    current_playlist_name := "X"
    current_playlist := ["x.mp3", "y.mp3", "z.mp3"]
    current_index := 2
    is_playing := true
    is_paused := false
    volume := 7/10
    use_vlc := false
    progress_var := 50 }

/-- Environment in which every file exists and the backend always starts
playback fine. -/
def env0 : PlayEnv := { file_exists := fun _ => true, raw_play := fun _ => none }

/-- Environment in which no file exists. -/
def envMissing : PlayEnv := { file_exists := fun _ => false, raw_play := fun _ => none }

/-- State equal to `sampleState` but with the VLC backend active. -/
def vlcPlayingState : PlayerState := { sampleState with use_vlc := true }

/-- State with an empty Playlist View and transport Stopped. -/
def emptyViewState : PlayerState :=
  { sampleState with
    current_playlist := []
    current_index := 0
    is_playing := false
    is_paused := false }

/-! Supporting lemmas. -/

/-- The cursor invariant of the spec: when the view is non-empty, the
cursor lies in `[0, len(view))`. -/
def cursorInv (s : PlayerState) : Prop :=
  s.current_playlist ≠ [] →
    0 ≤ s.current_index ∧ s.current_index < (s.current_playlist.length : Int)

instance (s : PlayerState) : Decidable (cursorInv s) := by
  unfold cursorInv
  infer_instance

/-- A needle leading a list still leads any extension of that list. -/
theorem leadsList_append {nee hay : List Char} (t : List Char)
    (h : leadsList nee hay = true) : leadsList nee (hay ++ t) = true := by
  induction nee generalizing hay with
  | nil => rfl
  | cons n ns ih =>
    cases hay with
    | nil => exact absurd h (by simp [leadsList])
    | cons c cs =>
      simp only [leadsList, Bool.and_eq_true] at h ⊢
      exact ⟨h.1, ih h.2⟩

/-- The empty needle occurs in every haystack. -/
theorem occursIn_nil (l : List Char) : occursIn [] l = true := by
  cases l <;> simp [occursIn, leadsList]

/-- A needle leads its own list. -/
theorem leadsList_refl (l : List Char) : leadsList l l = true := by
  induction l with
  | nil => rfl
  | cons c cs ih => simp [leadsList, ih]

/-- Occurrence is stable under extending the haystack on the right. -/
theorem occursIn_append_right {nee s : List Char} (t : List Char)
    (h : occursIn nee s = true) : occursIn nee (s ++ t) = true := by
  induction s with
  | nil =>
    have hn : nee = [] := by
      cases nee with
      | nil => rfl
      | cons n ns => exact absurd h (by simp [occursIn, leadsList])
    rw [hn]
    exact occursIn_nil t
  | cons c cs ih =>
    simp only [occursIn, Bool.or_eq_true] at h
    rcases h with h | h
    · have := leadsList_append t h
      simp only [List.cons_append, occursIn, Bool.or_eq_true]
      exact Or.inl (by simpa using this)
    · simp only [List.cons_append, occursIn, Bool.or_eq_true]
      exact Or.inr (ih h)

/-- Occurrence is stable under extending the haystack on the left. -/
theorem occursIn_append_left {nee t : List Char} (s : List Char)
    (h : occursIn nee t = true) : occursIn nee (s ++ t) = true := by
  induction s with
  | nil => simpa using h
  | cons c cs ih =>
    simp only [List.cons_append, occursIn, Bool.or_eq_true]
    exact Or.inr ih

/-- A list occurs in itself. -/
theorem occursIn_refl (l : List Char) : occursIn l l = true := by
  cases l with
  | nil => rfl
  | cons c cs => simp [occursIn, leadsList_refl]

/-- Python indexing with a non-negative in-range index is plain list
indexing. -/
theorem pyListGet_in_range (l : List String) (i : Int) (h0 : 0 ≤ i)
    (h1 : i < (l.length : Int)) :
    ∃ x, pyListGet l i = some x := by
  have hlt : i.toNat < l.length := by omega
  refine ⟨l.get ⟨i.toNat, hlt⟩, ?_⟩
  simp only [pyListGet, if_neg (not_lt.mpr h0), if_pos h0]
  exact List.get?_eq_get hlt

/-- The stale-cursor clamp touches only the cursor, and for a non-negative
cursor and a non-empty view it lands the cursor in range. -/
theorem clampIndex_bounds (s : PlayerState) (hne : s.current_playlist ≠ [])
    (h0 : 0 ≤ s.current_index) :
    0 ≤ (clampIndex s).current_index ∧
    (clampIndex s).current_index < ((clampIndex s).current_playlist.length : Int) ∧
    (clampIndex s).current_playlist = s.current_playlist ∧
    (clampIndex s).is_playing = s.is_playing ∧
    (clampIndex s).is_paused = s.is_paused := by
  have hlen : 0 < s.current_playlist.length := List.length_pos.mpr hne
  unfold clampIndex
  split
  · exact ⟨le_refl 0, by push_cast; omega, rfl, rfl, rfl⟩
  · next hno => exact ⟨h0, by omega, rfl, rfl, rfl⟩

/-- Playing from an in-range cursor leaves the cursor and the view as they
were, whatever the outcome. -/
theorem play_song_components (env : PlayEnv) (s : PlayerState)
    (h0 : 0 ≤ s.current_index)
    (h1 : s.current_index < (s.current_playlist.length : Int)) :
    (play_song env s).1.current_index = s.current_index ∧
    (play_song env s).1.current_playlist = s.current_playlist := by
  have hne : s.current_playlist ≠ [] := by
    intro hv
    rw [hv] at h1
    simp at h1
    omega
  have hc : clampIndex s = s := by
    unfold clampIndex
    rw [if_neg (not_le.mpr h1)]
  obtain ⟨x, hx⟩ := pyListGet_in_range s.current_playlist s.current_index h0 h1
  simp only [play_song, if_neg hne, hc, hx]
  split
  · split
    · exact ⟨rfl, rfl⟩
    · exact ⟨rfl, rfl⟩
  · exact ⟨rfl, rfl⟩

/-- Playing preserves the cursor invariant. -/
theorem play_song_preserves_inv (env : PlayEnv) (s : PlayerState)
    (h : cursorInv s) : cursorInv (play_song env s).1 := by
  by_cases hv : s.current_playlist = []
  · simp only [play_song, if_pos hv]
    exact h
  · obtain ⟨h0, h1⟩ := h hv
    obtain ⟨hi, hp⟩ := play_song_components env s h0 h1
    intro _
    rw [hi, hp]
    exact ⟨h0, h1⟩

/-- On a non-empty view, `next_song` moves the cursor to `(cursor + 1)`
modulo the view length and keeps the view. -/
theorem next_song_step (env : PlayEnv) (t : PlayerState)
    (hne : t.current_playlist ≠ []) :
    (next_song env t).1.current_index =
      (t.current_index + 1) % (t.current_playlist.length : Int) ∧
    (next_song env t).1.current_playlist = t.current_playlist := by
  have hlen : 0 < (t.current_playlist.length : Int) := by
    have := List.length_pos.mpr hne
    omega
  have h0 : 0 ≤ (t.current_index + 1) % (t.current_playlist.length : Int) :=
    Int.emod_nonneg _ (ne_of_gt hlen)
  have h1 : (t.current_index + 1) % (t.current_playlist.length : Int) <
      (t.current_playlist.length : Int) := Int.emod_lt_of_pos _ hlen
  simp only [next_song, if_neg hne]
  exact play_song_components env _ h0 h1

/-- On a non-empty view, `previous_song` moves the cursor to `(cursor - 1)`
modulo the view length and keeps the view. -/
theorem previous_song_step (env : PlayEnv) (t : PlayerState)
    (hne : t.current_playlist ≠ []) :
    (previous_song env t).1.current_index =
      (t.current_index - 1) % (t.current_playlist.length : Int) ∧
    (previous_song env t).1.current_playlist = t.current_playlist := by
  have hlen : 0 < (t.current_playlist.length : Int) := by
    have := List.length_pos.mpr hne
    omega
  have h0 : 0 ≤ (t.current_index - 1) % (t.current_playlist.length : Int) :=
    Int.emod_nonneg _ (ne_of_gt hlen)
  have h1 : (t.current_index - 1) % (t.current_playlist.length : Int) <
      (t.current_playlist.length : Int) := Int.emod_lt_of_pos _ hlen
  simp only [previous_song, if_neg hne]
  exact play_song_components env _ h0 h1

/-- Advancing to the next track preserves the cursor invariant. -/
theorem next_song_preserves_inv (env : PlayEnv) (s : PlayerState) :
    cursorInv (next_song env s).1 := by
  by_cases hv : s.current_playlist = []
  · simp only [next_song, if_pos hv]
    intro hne
    exact absurd hv hne
  · obtain ⟨hi, hp⟩ := next_song_step env s hv
    have hlen : 0 < (s.current_playlist.length : Int) := by
      have := List.length_pos.mpr hv
      omega
    intro _
    rw [hi, hp]
    exact ⟨Int.emod_nonneg _ (ne_of_gt hlen), Int.emod_lt_of_pos _ hlen⟩

/-- Retreating to the previous track preserves the cursor invariant. -/
theorem previous_song_preserves_inv (env : PlayEnv) (s : PlayerState) :
    cursorInv (previous_song env s).1 := by
  by_cases hv : s.current_playlist = []
  · simp only [previous_song, if_pos hv]
    intro hne
    exact absurd hv hne
  · obtain ⟨hi, hp⟩ := previous_song_step env s hv
    have hlen : 0 < (s.current_playlist.length : Int) := by
      have := List.length_pos.mpr hv
      omega
    intro _
    rw [hi, hp]
    exact ⟨Int.emod_nonneg _ (ne_of_gt hlen), Int.emod_lt_of_pos _ hlen⟩

/-- Removal from the current playlist preserves the cursor invariant. -/
theorem remove_preserves_inv (s : PlayerState) (index : Nat)
    (h : cursorInv s) :
    cursorInv (remove_song_from_current_playlist s index) := by
  unfold remove_song_from_current_playlist
  split
  · next hidx =>
    cases hm : lookupPlaylist s s.current_playlist_name with
    | none => simpa [hm] using h
    | some pl =>
      simp only [hm]
      split
      · next hmem =>
        intro hne'
        have hne : s.current_playlist ≠ [] :=
          List.ne_nil_of_length_pos (by omega)
        obtain ⟨h0, h1⟩ := h hne
        have hpmem : s.current_playlist.get ⟨index, hidx⟩ ∈ s.current_playlist :=
          List.get_mem _ _ _
        have hlen : (s.current_playlist.erase
            (s.current_playlist.get ⟨index, hidx⟩)).length =
            s.current_playlist.length - 1 :=
          List.length_erase_of_mem hpmem
        have hpos : 0 < (s.current_playlist.erase
            (s.current_playlist.get ⟨index, hidx⟩)).length :=
          List.length_pos.mpr hne'
        simp only [hlen] at hpos ⊢
        split
        · next hdec =>
          obtain ⟨hle, hposc⟩ := hdec
          constructor
          · omega
          · omega
        · next hdec =>
          rw [not_and_or] at hdec
          constructor
          · exact h0
          · rcases hdec with hgt | hnp
            · rw [not_le] at hgt
              omega
            · rw [not_lt] at hnp
              omega
      · exact h
  · exact h

/-! Claim theorems. -/

/-- C1, counterexample: `select_playlist` does not reset the cursor.  From
a state with cursor 2, selecting the `"All"` playlist replaces the view
(here by the one-song library) but leaves the cursor at 2, not 0. -/
theorem c1_select_playlist_cursor_not_reset :
    (select_playlist sampleState "All").current_playlist = ["a.mp3"] ∧
    (select_playlist sampleState "All").current_index = 2 ∧
    (select_playlist sampleState "All").current_index ≠ 0 := by
  decide

/-- C1, amended: `select_playlist` replaces the Playlist View with the
named collection and updates the current playlist name; it leaves the
cursor unchanged (no reset to 0), does not start playback, and does not
stop or alter playback in progress: transport flags, volume and backend
selection are untouched. -/
theorem c1_select_playlist_replaces_view_only (s : PlayerState) (name : String) :
    (select_playlist s name).current_index = s.current_index ∧
    (select_playlist s name).is_playing = s.is_playing ∧
    (select_playlist s name).is_paused = s.is_paused ∧
    (select_playlist s name).volume = s.volume ∧
    (select_playlist s name).use_vlc = s.use_vlc ∧
    (select_playlist s name).current_playlist_name = name ∧
    (name = "All" → (select_playlist s name).current_playlist = s.all_songs) ∧
    (name = "Favourite" → (select_playlist s name).current_playlist = s.favourites) ∧
    (name ≠ "All" → name ≠ "Favourite" →
      (select_playlist s name).current_playlist = (lookupPlaylist s name).getD []) := by
  refine ⟨rfl, rfl, rfl, rfl, rfl, rfl, ?_, ?_, ?_⟩
  · intro h
    subst h
    simp [select_playlist]
  · intro h
    subst h
    simp [select_playlist]
  · intro h1 h2
    simp [select_playlist, h1, h2]

/-- C1, witness: the amended statement at the sample state and `"All"`. -/
theorem c1_witness :
    (select_playlist sampleState "All").current_index = sampleState.current_index ∧
    (select_playlist sampleState "All").current_playlist = sampleState.all_songs :=
  ⟨(c1_select_playlist_replaces_view_only sampleState "All").1,
   (c1_select_playlist_replaces_view_only sampleState "All").2.2.2.2.2.2.1 rfl⟩

/-- C2, counterexample: the cursor invariant is not preserved by
`select_playlist`: the sample state satisfies it (cursor 2, view of 3),
but after selecting the one-song `"All"` playlist the cursor 2 is out of
range for the new view of length 1. -/
theorem c2_cursor_invariant_broken_by_select_playlist :
    cursorInv sampleState ∧ ¬ cursorInv (select_playlist sampleState "All") := by
  decide

/-- C2, amended: the cursor invariant (cursor in `[0, len(view))` whenever
the view is non-empty) is preserved by `play_song`, `next_song`,
`previous_song` and `remove_song_from_current_playlist`, for any removal
index; `select_playlist` is excluded, as the counterexample shows. -/
theorem c2_cursor_invariant_preserved (env : PlayEnv) (s : PlayerState)
    (index : Nat) (h : cursorInv s) :
    cursorInv (play_song env s).1 ∧
    cursorInv (next_song env s).1 ∧
    cursorInv (previous_song env s).1 ∧
    cursorInv (remove_song_from_current_playlist s index) :=
  ⟨play_song_preserves_inv env s h, next_song_preserves_inv env s,
   previous_song_preserves_inv env s, remove_preserves_inv s index h⟩

/-- C2, witness: the preservation statement at the sample state. -/
theorem c2_witness :
    cursorInv (play_song env0 sampleState).1 ∧
    cursorInv (next_song env0 sampleState).1 ∧
    cursorInv (previous_song env0 sampleState).1 ∧
    cursorInv (remove_song_from_current_playlist sampleState 0) :=
  c2_cursor_invariant_preserved env0 sampleState 0 (by decide)

/-- C3, code bug, evaluated at the failing input: with the VLC backend
active and playing (`is_playing() == 1`, so `_backend_is_busy()` is true)
while the idle pygame mixer reports not busy, the end-of-track poll
`check_song_end` still advances — it moves the cursor from 2 to
`(2 + 1) % 3 = 0` — because the source consults
`pygame.mixer.music.get_busy()` directly instead of the active backend's
busy query. -/
theorem c3_check_song_end_ignores_active_backend :
    vlcPlayingState.is_playing = true ∧
    vlcPlayingState.use_vlc = true ∧
    backend_is_busy vlcPlayingState.use_vlc (some 1) (some false) = true ∧
    vlcPlayingState.current_index = 2 ∧
    (check_song_end env0 false vlcPlayingState).1.current_index = 0 := by
  decide

/-- C4, counterexample: `set_volume` does not store a clamped value: input
`-0.5` stores `-0.005` (not `0.0`) and input `1.7` stores `0.017`
(not `1.0`), because the slider value is divided by 100 and stored without
clamping. -/
theorem c4_set_volume_not_clamped :
    (set_volume sampleState (-1/2)).1.volume ≠ 0 ∧
    (set_volume sampleState (17/10)).1.volume ≠ 1 ∧
    (set_volume sampleState (-1/2)).1.volume = -1/200 ∧
    (set_volume sampleState (17/10)).1.volume = 17/1000 := by
  refine ⟨?_, ?_, ?_, ?_⟩
  · show (-1/2 : ℚ) / 100 ≠ 0
    norm_num
  · show (17/10 : ℚ) / 100 ≠ 1
    norm_num
  · show (-1/2 : ℚ) / 100 = -1/200
    norm_num
  · show (17/10 : ℚ) / 100 = 17/1000
    norm_num

/-- C4, amended: `set_volume` interprets its input as a slider percentage:
it stores `input / 100` as the Engine volume without clamping, and the
backend layer clamps the forwarded value into `[0, 1]` before applying
it. -/
theorem c4_set_volume_amended (s : PlayerState) (value : ℚ) :
    (set_volume s value).1.volume = value / 100 ∧
    (set_volume s value).2 = clamp01 (value / 100) ∧
    0 ≤ (set_volume s value).2 ∧
    (set_volume s value).2 ≤ 1 := by
  refine ⟨rfl, rfl, le_max_left _ _, ?_⟩
  exact max_le (by norm_num) (min_le_left _ _)

/-- C5: every failing `play_song` call leaves the transport flags exactly
as they were.  For a non-negative cursor (an invariant of the program: the
cursor is only ever set to 0, a listbox selection, a value modulo the view
length, or decremented when positive) the possible failures are exactly
the empty playlist, the missing file, and the backend error; in each of
those cases `is_playing` and `is_paused` come out unchanged. -/
theorem c5_play_failure_keeps_transport (env : PlayEnv) (s : PlayerState)
    (e : PlayError) (h0 : 0 ≤ s.current_index)
    (h : (play_song env s).2 = some e) :
    e ≠ .internalError ∧
    (play_song env s).1.is_playing = s.is_playing ∧
    (play_song env s).1.is_paused = s.is_paused := by
  by_cases hv : s.current_playlist = []
  · simp only [play_song, if_pos hv] at h ⊢
    simp only [Option.some.injEq] at h
    subst h
    exact ⟨by decide, by trivial, by trivial⟩
  · obtain ⟨hz, hlt, hview, hplay, hpause⟩ := clampIndex_bounds s hv h0
    obtain ⟨x, hx⟩ :=
      pyListGet_in_range (clampIndex s).current_playlist
        (clampIndex s).current_index hz hlt
    simp only [play_song, if_neg hv, hx] at h ⊢
    by_cases hf : env.file_exists x = true
    · simp only [hf, if_true] at h ⊢
      cases hb : backend_play (clampIndex s).use_vlc (env.raw_play x) with
      | some msg =>
        simp only [hb, Option.some.injEq] at h ⊢
        subst h
        exact ⟨by simp, hplay, hpause⟩
      | none =>
        rw [hb] at h
        cases h
    · rw [if_neg hf] at h ⊢
      simp only [Option.some.injEq] at h
      subst h
      exact ⟨by simp, hplay, hpause⟩

/-- C5, witness: a missing-file failure at the sample state (the cursor
points at `"z.mp3"`, which does not exist in `envMissing`). -/
theorem c5_witness :
    PlayError.resourceMissing "z.mp3" ≠ PlayError.internalError ∧
    (play_song envMissing sampleState).1.is_playing = sampleState.is_playing ∧
    (play_song envMissing sampleState).1.is_paused = sampleState.is_paused :=
  c5_play_failure_keeps_transport envMissing sampleState
    (.resourceMissing "z.mp3") (by decide) (by decide)

/-- C6: calling `play_song` on an empty Playlist View fails with the
empty-playlist error and modifies no state field at all; in particular a
Stopped transport stays Stopped. -/
theorem c6_play_empty_playlist (env : PlayEnv) (s : PlayerState)
    (h : s.current_playlist = []) :
    play_song env s = (s, some .emptyPlaylist) := by
  simp only [play_song, if_pos h]

/-- C6, witness: the empty-view statement at a concrete Stopped state. -/
theorem c6_witness :
    play_song env0 emptyViewState = (emptyViewState, some .emptyPlaylist) ∧
    emptyViewState.is_playing = false ∧
    emptyViewState.is_paused = false :=
  ⟨c6_play_empty_playlist env0 emptyViewState rfl, rfl, rfl⟩

/-- C7: wrap-around closure.  From any non-empty view and any valid
cursor, applying `next_song` `len(view)` times returns the cursor to its
starting value; each step advances the cursor by +1 modulo the view
length and `play_song` never moves an in-range cursor. -/
theorem c7_next_wraparound (env : PlayEnv) (s : PlayerState)
    (hne : s.current_playlist ≠ [])
    (h0 : 0 ≤ s.current_index)
    (h1 : s.current_index < (s.current_playlist.length : Int)) :
    ((fun t => (next_song env t).1)^[s.current_playlist.length] s).current_index
      = s.current_index := by
  have key : ∀ k : Nat,
      ((fun t => (next_song env t).1)^[k] s).current_playlist = s.current_playlist ∧
      ((fun t => (next_song env t).1)^[k] s).current_index
        = (s.current_index + k) % (s.current_playlist.length : Int) := by
    intro k
    induction k with
    | zero =>
      refine ⟨rfl, ?_⟩
      simp only [Function.iterate_zero_apply]
      push_cast
      rw [add_zero, Int.emod_eq_of_lt h0 h1]
    | succ n ih =>
      obtain ⟨hv, hi⟩ := ih
      rw [Function.iterate_succ_apply']
      have hne' : ((fun t => (next_song env t).1)^[n] s).current_playlist ≠ [] := by
        rw [hv]
        exact hne
      obtain ⟨hi', hv'⟩ := next_song_step env _ hne'
      constructor
      · rw [hv', hv]
      · rw [hi', hv, hi, Int.emod_add_emod]
        congr 1
        push_cast
        ring
  obtain ⟨hv, hi⟩ := key s.current_playlist.length
  rw [hi]
  rw [show s.current_index + (s.current_playlist.length : Int) =
      s.current_index + (s.current_playlist.length : Int) * 1 by ring]
  rw [Int.add_mul_emod_self_left, Int.emod_eq_of_lt h0 h1]

/-- C7, witness: at the sample state (view of three tracks, cursor 2),
three applications of `next_song` return the cursor to 2. -/
theorem c7_witness :
    ((fun t => (next_song env0 t).1)^[3] sampleState).current_index = 2 :=
  c7_next_wraparound env0 sampleState (by decide) (by decide) (by decide)

/-- C8, counterexample: with a zero duration the tick does not publish a
progress of 0 — it leaves the previously displayed progress (here 50) in
place, because the `duration > 0` guard skips the whole update. -/
theorem c8_zero_duration_keeps_old_progress :
    update_progress true (some 10) (some 0) sampleState = 50 ∧ (50 : ℚ) ≠ 0 := by
  constructor
  · decide
  · norm_num

/-- C8, amended: on a Playing tick with a busy backend the published
progress equals `min(position/duration*100, 100)` whenever the duration is
positive; when the duration is 0 or the duration query fails, the
previously displayed progress is retained rather than reset to 0.  The
tick is a total function of the query outcomes (`none` modelling a raised
query), so backend query failures never propagate out of it. -/
theorem c8_progress_tick (busy : Bool) (pos dur : Option ℚ) (s : PlayerState) :
    (∀ p d, s.is_playing = true → busy = true → pos = some p → dur = some d →
      0 < d → update_progress busy pos dur s = min (p / d * 100) 100) ∧
    (dur = some 0 → update_progress busy pos dur s = s.progress_var) ∧
    (dur = none → update_progress busy pos dur s = s.progress_var) := by
  refine ⟨?_, ?_, ?_⟩
  · intro p d hp hb hpos hdur hd
    subst hpos
    subst hdur
    simp only [update_progress, hp, hb, Bool.and_self, if_true]
    rw [if_pos hd]
  · intro h
    subst h
    unfold update_progress
    split
    · cases pos <;> simp [lt_irrefl]
    · rfl
  · intro h
    subst h
    unfold update_progress
    split
    · cases pos <;> rfl
    · rfl

/-- C8, witness: the publish branch at the sample state with position 30
seconds and duration 60 seconds. -/
theorem c8_witness :
    update_progress true (some 30) (some 60) sampleState
      = min ((30 : ℚ) / 60 * 100) 100 :=
  (c8_progress_tick true (some 30) (some 60) sampleState).1 30 60
    rfl rfl rfl rfl (by norm_num)

set_option maxRecDepth 8000 in
/-- C9: when the degraded pygame backend fails with the known
`ModPlug_load failed` decode error, `_backend_play` surfaces a wrapped
message, not the raw backend error: the surfaced message contains the
remediation hint `pip install python-vlc`, still contains the original
backend message, and differs from the raw message. -/
theorem c9_modplug_wrapped (msg : String)
    (h : strContains msg modplugToken = true) :
    ∃ m, backend_play false (some msg) = some m ∧
      strContains m "pip install python-vlc" = true ∧
      strContains m msg = true ∧
      m ≠ msg := by
  refine ⟨remediationText msg, ?_, ?_, ?_, ?_⟩
  · unfold backend_play
    simp [h]
  · unfold strContains remediationText
    rw [String.data_append]
    apply occursIn_append_right
    decide
  · unfold strContains remediationText
    rw [String.data_append]
    exact occursIn_append_left _ (occursIn_refl _)
  · intro he
    have hlen := congrArg (fun t => t.data.length) he
    simp only [remediationText, String.data_append, List.length_append] at hlen
    have hpos : remediationLead.data.length ≠ 0 := by decide
    omega

/-- C9, witness: the wrapped-error statement at the literal raw message
`"ModPlug_load failed"`. -/
theorem c9_witness :
    ∃ m, backend_play false (some "ModPlug_load failed") = some m ∧
      strContains m "pip install python-vlc" = true ∧
      strContains m "ModPlug_load failed" = true ∧
      m ≠ "ModPlug_load failed" :=
  c9_modplug_wrapped "ModPlug_load failed" (by decide)

/-- C10: the title lookup is a total function that never returns an empty
string: with no usable metadata tag, the filename
`"01 - Artist - My Song.mp3"` yields the title `"My Song"` (path and
extension stripped, trailing separator-delimited segment kept,
track-number prefix stripped), and for every metadata outcome and every
path the result is non-empty — an empty derived name becomes
`"Unknown Song"`. -/
theorem c10_title_fallback :
    get_song_info none "01 - Artist - My Song.mp3" = "My Song" ∧
    ∀ tag path, get_song_info tag path ≠ "" := by
  have hfb : ∀ p : String, get_song_fallback p ≠ "" := by
    intro p
    simp only [get_song_fallback]
    split
    · decide
    · next hns =>
      intro he
      exact hns (congrArg String.data he)
  constructor
  · decide
  · intro tag path
    cases tag with
    | none => exact hfb path
    | some t =>
      show (if t ≠ "" ∧ t ≠ "Unknown" then t else get_song_fallback path) ≠ ""
      split
      · next hc => exact hc.1
      · exact hfb path
